import Mathlib

/-!
Shallow embedding of the video-stream-tailscale repository
(`pi_server_enhanced.py`, `main_lightweight.py`) and verification of its
specification claims.

The embedding models:
  * `StreamState` with `start_recording` / `stop_recording` / `write_frame`
    (pi_server_enhanced.py lines 42-135),
  * the command dispatch of `listen_for_commands` (lines 311-351),
  * one iteration of the `stream_video` loop: frame write, header packing,
    UDP send with sequence counting, and the recording size-cap check
    (lines 224-285),
  * the 12-byte big-endian packet header `struct.Struct("!I Q")`,
  * the `DOWNLOAD:` branch of `handle_status_client` (lines 420-441).

External effects (camera reads, socket sends, clock reads, writer-open
success, on-disk file sizes) are passed in as explicit inputs; a Python
exception raised between them is modelled with `Except`.
-/

namespace VideoStream

/-- A `cv2.VideoWriter` as constructed in `start_recording`: all the server
ever asks it is `isOpened()`, so the model carries that one bit. -/
structure VideoWriter where
  isOpened : Bool
deriving DecidableEq, Repr

/-- The `StreamState` record of pi_server_enhanced.py (lines 44-57), minus
the lock (the embedding is sequential: each operation below is exactly the
code executed under `with self.lock`) and `session_start` (only read by
`get_stats`, which no claim concerns). Times are nanosecond/second counts
as `Nat`. -/
structure StreamState where
  streaming : Bool
  recording : Bool
  pc_ip : Option String
  fps : Nat
  quality : Nat
  resolution : Nat × Nat
  frames_sent : Nat
  frames_recorded : Nat
  recording_file : Option String
  recording_start_time : Option Nat
  video_writer : Option VideoWriter
deriving DecidableEq, Repr

/-- The state built by `StreamState.__init__` (lines 44-57). -/
def initState : StreamState :=
  { streaming := false
    recording := false
    pc_ip := none
    fps := 15
    quality := 40
    resolution := (640, 480)
    frames_sent := 0
    frames_recorded := 0
    recording_file := none
    recording_start_time := none
    video_writer := none }

/-- `StreamState.start_recording` (lines 81-107).  `filename` is the name
after the `None` default is filled in (the timestamp-derived
`recording_<ts>.avi`), `now` the value of `time.time()`, and `openOk` the
result of `self.video_writer.isOpened()` for the freshly constructed
`cv2.VideoWriter`.  Note the source assigns `self.video_writer` BEFORE
checking `isOpened()`, so the failure branch returns with the writer field
already overwritten. -/
def start_recording (s : StreamState) (filename : String) (now : Nat)
    (openOk : Bool) : StreamState × Bool × String :=
  if s.recording then
    (s, false, "Already recording")
  else
    let s1 := { s with video_writer := some ⟨openOk⟩ }
    if !openOk then
      (s1, false, "Failed to create video writer")
    else
      ({ s1 with
          recording := true
          recording_file := some filename
          recording_start_time := some now
          frames_recorded := 0 },
        true, "Recording started: " ++ filename)

/-- `StreamState.stop_recording` (lines 109-126); `now` is `time.time()`. -/
def stop_recording (s : StreamState) (now : Nat) :
    StreamState × Bool × String :=
  if !s.recording then
    (s, false, "Not recording")
  else
    let duration := match s.recording_start_time with
      | some t => now - t
      | none => 0
    ({ s with
        video_writer := none
        recording := false
        recording_file := none
        recording_start_time := none },
      true,
      "Recording stopped: " ++ s.recording_file.getD "None" ++ " ("
        ++ toString duration ++ "s, " ++ toString s.frames_recorded
        ++ " frames)")

/-- `StreamState.write_frame` (lines 128-135).  The Python condition
`self.recording and self.video_writer` is Boolean truthiness of the
writer object, i.e. the field is not `None`. -/
def write_frame (s : StreamState) : StreamState × Bool :=
  if s.recording && s.video_writer.isSome then
    ({ s with frames_recorded := s.frames_recorded + 1 }, true)
  else
    (s, false)

/-- Whether the writer field holds an opened writer (`isOpened()` true). -/
def writerOpen (s : StreamState) : Bool :=
  match s.video_writer with
  | some w => w.isOpened
  | none => false

/-- The recording invariant that the code actually maintains:
`recording` iff the writer is OPEN, iff `recording_file` is set, iff
`recording_start_time` is set.  (The stronger "recording iff the writer
field is set" is falsified by the failed-open branch of
`start_recording`.) -/
def RecInv (s : StreamState) : Prop :=
  s.recording = writerOpen s
    ∧ s.recording = s.recording_file.isSome
    ∧ s.recording = s.recording_start_time.isSome

instance (s : StreamState) : Decidable (RecInv s) := by
  unfold RecInv; infer_instance

/-- Inputs a `RECORD_START` consumes from the environment: the default
filename derived from the wall clock, `time.time()`, and whether the
`cv2.VideoWriter` opens. -/
structure CmdEnv where
  filename : String
  now : Nat
  openOk : Bool
deriving DecidableEq, Repr

/-- One dispatch of `listen_for_commands` (pi_server_enhanced.py lines
311-351) on a datagram that decoded as UTF-8.  `cmd` is the already
stripped-and-uppercased token, `sender` the datagram source address
(`addr[0]`), `running` the shared `running_flag[0]`.  The result is the
new state, the new running flag, and the single reply datagram sent back
to the sender (line 351); `response` starts as `"OK"` and is only
reassigned by a recognized command. -/
def processCommand (s : StreamState) (running : Bool) (cmd sender : String)
    (env : CmdEnv) : StreamState × Bool × String :=
  if cmd = "START" then
    ({ s with streaming := true, pc_ip := some sender }, running,
      "STREAMING_STARTED")
  else if cmd = "STOP" then
    ({ s with streaming := false }, running, "STREAMING_STOPPED")
  else if cmd = "RECORD_START" then
    let r := start_recording s env.filename env.now env.openOk
    (r.1, running, r.2.2)
  else if cmd = "RECORD_STOP" then
    let r := stop_recording s env.now
    (r.1, running, r.2.2)
  else if cmd = "PING" then
    (s, running, "PONG")
  else if cmd = "SHUTDOWN" then
    (s, false, "SHUTTING_DOWN")
  else
    (s, running, "OK")

/-- The command listener applied to a finite sequence of datagrams in
receipt order; each list entry is (command token, sender, environment). -/
def applyCommands (s : StreamState) (running : Bool) :
    List (String × String × CmdEnv) → StreamState × Bool
  | [] => (s, running)
  | c :: rest =>
    let r := processCommand s running c.1 c.2.1 c.2.2
    applyCommands r.1 r.2.1 rest

/-! ### The 12-byte packet header, `struct.Struct("!I Q")` -/

/-- Big-endian byte string of `n` on `w` bytes (most significant first),
as `struct.pack` lays out fixed-width fields. -/
def toBytesBE : Nat → Nat → List Nat
  | 0, _ => []
  | w + 1, n => toBytesBE w (n / 256) ++ [n % 256]

/-- Big-endian value of a byte string, as `struct.unpack` reads it. -/
def fromBytesBE (bs : List Nat) : Nat :=
  bs.foldl (fun acc b => acc * 256 + b) 0

def UINT32_MOD : Nat := 2 ^ 32

def UINT64_MOD : Nat := 2 ^ 64

/-- `struct.Struct("!I Q").pack(seq, ts)`: 4-byte big-endian uint32 then
8-byte big-endian uint64.  Python's `struct.pack` RAISES `struct.error`
on an argument out of the field's range (it does not wrap), modelled by
`none`. -/
def headerPack (seq ts : Nat) : Option (List Nat) :=
  if seq < UINT32_MOD ∧ ts < UINT64_MOD then
    some (toBytesBE 4 seq ++ toBytesBE 8 ts)
  else
    none

/-- `struct.Struct("!I Q").unpack` of a 12-byte buffer. -/
def headerUnpack (bs : List Nat) : Option (Nat × Nat) :=
  if bs.length = 12 then
    some (fromBytesBE (bs.take 4), fromBytesBE (bs.drop 4))
  else
    none

/-! ### One iteration of the `stream_video` loop (pi_server_enhanced.py) -/

def MAX_RECORDING_SIZE_MB : Nat := 500

/-- The size cap in bytes.  The source compares
`os.path.getsize(p) / (1024 * 1024) > MAX_RECORDING_SIZE_MB`; dividing an
integer below 2^53 by the power of two 2^20 is exact in IEEE double, so
that float test is exactly `size > 500 * 2^20` on bytes. -/
def capBytes : Nat := MAX_RECORDING_SIZE_MB * 1024 * 1024

/-- Per-iteration inputs of the streaming loop taken from the outside
world: whether `camera.read()` produced a frame, how many bytes the
writer appends to the recording file for this frame, `time.time_ns()`,
whether `sock.sendto` succeeds, whether `os.path.exists` holds for the
recording file (true whenever the writer created it), and the
`time.time()` a size-cap `stop_recording` would read. -/
structure StreamInput where
  frame : Bool
  frameBytes : Nat
  tsNs : Nat
  sendOk : Bool
  fileExists : Bool
  now : Nat
deriving DecidableEq, Repr

/-- One pass through the body of the `while` loop of `stream_video`
(pi_server_enhanced.py lines 225-285), with commands quiescent for the
iteration.  State threading: the shared `StreamState`, the local `seq`,
and the on-disk size in bytes `fsz` of the current recording file.
Order is the source's: idle check, read, `write_frame`, encode,
`header_struct.pack` (which RAISES past uint32 range — `.error`), the
guarded send with `frames_sent`/`seq` increments inside its own
`try/except`, then the size-cap check invoking `stop_recording`. -/
def streamIter (s : StreamState) (seq fsz : Nat) (inp : StreamInput) :
    Except String (StreamState × Nat × Nat) :=
  if !s.streaming then .ok (s, seq, fsz)
  else if !inp.frame then .ok (s, seq, fsz)
  else
    let w := write_frame s
    let fsz1 := if w.2 then fsz + inp.frameBytes else fsz
    match headerPack seq inp.tsNs with
    | none => .error "struct.error: argument out of range"
    | some _ =>
      let sent :=
        match w.1.pc_ip with
        | some _ =>
          if inp.sendOk then
            ({ w.1 with frames_sent := w.1.frames_sent + 1 }, seq + 1)
          else (w.1, seq)
        | none => (w.1, seq)
      let s3 :=
        if sent.1.recording && sent.1.recording_file.isSome
            && inp.fileExists && decide (capBytes < fsz1) then
          (stop_recording sent.1 inp.now).1
        else sent.1
      .ok (s3, sent.2, fsz1)

/-- The streaming loop run over a finite list of per-iteration inputs;
a raised exception (`.error`) aborts the loop as in the source, where it
escapes the `while` into the `finally` block. -/
def streamRun (s : StreamState) (seq fsz : Nat) :
    List StreamInput → Except String (StreamState × Nat × Nat)
  | [] => .ok (s, seq, fsz)
  | inp :: rest =>
    match streamIter s seq fsz inp with
    | .error e => .error e
    | .ok r => streamRun r.1 r.2.1 r.2.2 rest

/-- One pass through the loop of `stream_video` in main_lightweight.py
(lines 131-173), which keeps only `seq`: pack (raising past uint32
range), then send to the static `PC_IP` with `seq += 1` under
`try/except`. -/
def lightIter (seq : Nat) (frame : Bool) (tsNs : Nat) (sendOk : Bool) :
    Except String Nat :=
  if !frame then .ok seq
  else
    match headerPack seq tsNs with
    | none => .error "struct.error: argument out of range"
    | some _ => if sendOk then .ok (seq + 1) else .ok seq

/-! ### The DOWNLOAD branch of `handle_status_client` -/

def RECORDING_DIR : String := "/home/pi/recordings"

/-- `os.path.join(dir, name)` for the cases that arise: an absolute
second component discards the directory entirely; otherwise the parts
are joined with a separator. -/
def pathJoin (dir name : String) : String :=
  if "/".data.isPrefixOf name.data then name else dir ++ "/" ++ name

/-- Fuel-indexed helper for `readChunks`; a fuel of at least the list
length is always sufficient because each chunk consumes at least one
byte. -/
def readChunksAux : Nat → List Nat → List (List Nat)
  | 0, _ => []
  | _, [] => []
  | fuel + 1, b :: rest =>
    ((b :: rest).take 8192) :: readChunksAux fuel ((b :: rest).drop 8192)

/-- The `f.read(8192)` loop of the download branch: the file content cut
into chunks of 8192 bytes (the last one shorter), in order. -/
def readChunks (l : List Nat) : List (List Nat) :=
  readChunksAux l.length l

/-- One message passed to `conn.sendall`. -/
inductive Sent where
  | text : String → Sent
  | bytes : List Nat → Sent
deriving DecidableEq, Repr

/-- The filesystem visible to the handler: resolved path to file bytes
(`none` when `os.path.exists` is false). -/
def FileSys : Type := String → Option (List Nat)

/-- The `DOWNLOAD:` branch of `handle_status_client`
(pi_server_enhanced.py lines 420-441): resolve
`os.path.join(RECORDING_DIR, filename)`; if absent, send the plaintext
not-found reply and return; else send the `SIZE:<bytes>\n` preamble and
then the content in 8192-byte chunks.  The returned list is the sequence
of `conn.sendall` calls. -/
def handleDownload (fs : FileSys) (filename : String) : List Sent :=
  let filepath := pathJoin RECORDING_DIR filename
  match fs filepath with
  | none => [.text "ERROR: File not found"]
  | some content =>
    .text ("SIZE:" ++ toString content.length ++ "\n")
      :: (readChunks content).map .bytes

/-- A filesystem holding one sensitive file outside the recordings
directory, for exercising the unsanitized DOWNLOAD path. -/
def fsEtc : FileSys :=
  fun p => if p = "/etc/passwd" then some [114, 111, 111, 116] else none

/-- A filesystem holding one three-byte recording, for witnesses. -/
def fsDemo : FileSys :=
  fun p => if p = "/home/pi/recordings/a.avi" then some [7, 8, 9] else none

/-- The sequence number after one loop iteration, `none` when the
iteration raised. -/
def iterSeq (s : StreamState) (seq fsz : Nat) (inp : StreamInput) :
    Option Nat :=
  match streamIter s seq fsz inp with
  | .ok r => some r.2.1
  | .error _ => none

/-- A state mid-stream: streaming, control endpoint learned, not
recording. -/
def streamingState : StreamState :=
  { initState with streaming := true, pc_ip := some "100.1.2.3" }

/-- A state mid-recording: the result of a successful `RECORD_START`
from the initial state. -/
def recState : StreamState :=
  (start_recording initState "rec_0001.avi" 100 true).1

/-- A recording state that is also streaming to a learned endpoint. -/
def recStreamingState : StreamState :=
  { recState with streaming := true, pc_ip := some "100.1.2.3" }

/-- A representative per-iteration input: a frame arrives, the writer
appends 100 bytes, the send succeeds, the recording file exists. -/
def demoInput : StreamInput :=
  { frame := true, frameBytes := 100, tsNs := 1234567890, sendOk := true,
    fileExists := true, now := 50 }

/-- A representative `RECORD_START` environment. -/
def env0 : CmdEnv := { filename := "rec.avi", now := 0, openOk := true }

/-- The state after one loop iteration from `recStreamingState` with the
file already at the size cap: the frame is recorded and sent, then the
cap check stops the recording. -/
def wState : StreamState :=
  { streaming := true, recording := false, pc_ip := some "100.1.2.3",
    fps := 15, quality := 40, resolution := (640, 480), frames_sent := 1,
    frames_recorded := 1, recording_file := none,
    recording_start_time := none, video_writer := none }

/-! ## Helper lemmas -/

theorem length_toBytesBE (w n : Nat) : (toBytesBE w n).length = w := by
  induction w generalizing n with
  | zero => rfl
  | succ w ih => simp [toBytesBE, ih]

theorem fromBytesBE_concat (xs : List Nat) (b : Nat) :
    fromBytesBE (xs ++ [b]) = fromBytesBE xs * 256 + b := by
  simp [fromBytesBE, List.foldl_append]

theorem fromBytesBE_toBytesBE (w n : Nat) :
    fromBytesBE (toBytesBE w n) = n % 256 ^ w := by
  induction w generalizing n with
  | zero => simp [toBytesBE, fromBytesBE, Nat.mod_one]
  | succ w ih =>
    rw [toBytesBE, fromBytesBE_concat, ih, pow_succ,
      mul_comm (256 ^ w) 256, Nat.mod_mul]
    ring

theorem applyCommands_append (s : StreamState) (r : Bool)
    (xs ys : List (String × String × CmdEnv)) :
    applyCommands s r (xs ++ ys) =
      applyCommands (applyCommands s r xs).1 (applyCommands s r xs).2 ys := by
  induction xs generalizing s r with
  | nil => rfl
  | cons c rest ih => simp [applyCommands, ih]

theorem write_frame_streaming (s : StreamState) :
    (write_frame s).1.streaming = s.streaming := by
  unfold write_frame; split <;> rfl

theorem write_frame_recording (s : StreamState) :
    (write_frame s).1.recording = s.recording := by
  unfold write_frame; split <;> rfl

theorem write_frame_pc_ip (s : StreamState) :
    (write_frame s).1.pc_ip = s.pc_ip := by
  unfold write_frame; split <;> rfl

theorem write_frame_recording_file (s : StreamState) :
    (write_frame s).1.recording_file = s.recording_file := by
  unfold write_frame; split <;> rfl

theorem write_frame_recording_start_time (s : StreamState) :
    (write_frame s).1.recording_start_time = s.recording_start_time := by
  unfold write_frame; split <;> rfl

theorem write_frame_video_writer (s : StreamState) :
    (write_frame s).1.video_writer = s.video_writer := by
  unfold write_frame; split <;> rfl

/-! ## Claims -/

/-- C1, counterexample: a `RECORD_START` whose writer fails to open does
NOT leave every field of `StreamState` as it was — from the initial
state, the failed call returns success = false yet has overwritten
`video_writer` with the non-open writer object, so the state has
`recording = false` while the writer field is set. -/
theorem C1_counterexample :
    (start_recording initState "rec_0001.avi" 100 false).2.1 = false
    ∧ (start_recording initState "rec_0001.avi" 100 false).1.video_writer
        ≠ initState.video_writer
    ∧ (start_recording initState "rec_0001.avi" 100 false).1.recording = false
    ∧ (start_recording initState "rec_0001.avi" 100 false).1.video_writer.isSome
        = true := by
  decide

/-- C1 (amended): `recording = true` iff the writer is OPEN, iff
`recording_file` is set, iff `recording_start_time` is set; this
invariant is preserved by `start_recording`, `stop_recording` and
`write_frame`.  A `RECORD_START` whose writer fails to open leaves every
field unchanged EXCEPT `video_writer`, which it overwrites with the
freshly constructed non-open writer; in particular whether the writer is
open is unchanged. -/
theorem C1_recording_invariant (s : StreamState) (fn : String) (now : Nat)
    (ok : Bool) (h : RecInv s) :
    RecInv (start_recording s fn now ok).1
    ∧ RecInv (stop_recording s now).1
    ∧ RecInv (write_frame s).1
    ∧ (start_recording s fn now false).1.recording = s.recording
    ∧ (start_recording s fn now false).1.streaming = s.streaming
    ∧ (start_recording s fn now false).1.pc_ip = s.pc_ip
    ∧ (start_recording s fn now false).1.frames_sent = s.frames_sent
    ∧ (start_recording s fn now false).1.frames_recorded = s.frames_recorded
    ∧ (start_recording s fn now false).1.recording_file = s.recording_file
    ∧ (start_recording s fn now false).1.recording_start_time
        = s.recording_start_time
    ∧ writerOpen (start_recording s fn now false).1 = writerOpen s := by
  obtain ⟨h1, h2, h3⟩ := h
  cases hrec : s.recording <;> cases ok <;> cases hw : s.video_writer <;>
    simp_all [RecInv, start_recording, stop_recording, write_frame, writerOpen]

/-- C1, witness: the invariant holds for a live recording state and is
preserved by stopping it. -/
theorem C1_witness :
    RecInv recState ∧ RecInv (stop_recording recState 300).1 :=
  ⟨by decide, (C1_recording_invariant recState "f.avi" 5 true (by decide)).2.1⟩

/-- C3: for every sequence number below 2^32 and nanosecond timestamp
below 2^64, packing with the 12-byte big-endian `!I Q` header format and
unpacking recovers exactly the original pair. -/
theorem C3_header_roundtrip (seq ts : Nat) (h1 : seq < UINT32_MOD)
    (h2 : ts < UINT64_MOD) :
    ∃ bs, headerPack seq ts = some bs
      ∧ bs.length = 12
      ∧ headerUnpack bs = some (seq, ts) := by
  refine ⟨toBytesBE 4 seq ++ toBytesBE 8 ts, ?_, ?_, ?_⟩
  · simp [headerPack, h1, h2]
  · simp [length_toBytesBE]
  · have ht : (toBytesBE 4 seq ++ toBytesBE 8 ts).take 4 = toBytesBE 4 seq :=
      List.take_left' (length_toBytesBE 4 seq)
    have hd : (toBytesBE 4 seq ++ toBytesBE 8 ts).drop 4 = toBytesBE 8 ts :=
      List.drop_left' (length_toBytesBE 4 seq)
    have hlen : (toBytesBE 4 seq ++ toBytesBE 8 ts).length = 12 := by
      simp [length_toBytesBE]
    rw [headerUnpack, if_pos hlen, ht, hd, fromBytesBE_toBytesBE,
      fromBytesBE_toBytesBE,
      Nat.mod_eq_of_lt (lt_of_lt_of_eq h1 (by norm_num [UINT32_MOD])),
      Nat.mod_eq_of_lt (lt_of_lt_of_eq h2 (by norm_num [UINT64_MOD]))]

/-- C3, witness: the round trip at sequence number 5, timestamp 77. -/
theorem C3_witness :
    5 < UINT32_MOD ∧ 77 < UINT64_MOD
    ∧ ∃ bs, headerPack 5 77 = some bs ∧ bs.length = 12
        ∧ headerUnpack bs = some (5, 77) :=
  ⟨by decide, by decide, C3_header_roundtrip 5 77 (by decide) (by decide)⟩

/-- C4: when `recording` is already true, a second `RECORD_START` leaves
the whole `StreamState` literally unchanged, `start_recording` returns
failure with "Already recording", and the command dispatch replies with
that failure message. -/
theorem C4_double_record_start (s : StreamState) (r : Bool)
    (sender fn : String) (now : Nat) (ok : Bool) (env : CmdEnv)
    (h : s.recording = true) :
    start_recording s fn now ok = (s, false, "Already recording")
    ∧ processCommand s r "RECORD_START" sender env
        = (s, r, "Already recording") := by
  refine ⟨?_, ?_⟩
  · simp [start_recording, h]
  · simp [processCommand, start_recording, h]

/-- C4, witness: the double `RECORD_START` at a concrete recording
state. -/
theorem C4_witness :
    recState.recording = true
    ∧ processCommand recState true "RECORD_START" "100.1.2.3" env0
        = (recState, true, "Already recording") :=
  ⟨by decide,
    (C4_double_record_start recState true "100.1.2.3" "f.avi" 5 true env0
      (by decide)).2⟩

/-- C5: when `recording` is false, `RECORD_STOP` returns a failure reply
"Not recording", changes no `StreamState` field (the state is returned
literally unchanged), and the total Lean model shows the call cannot
raise. -/
theorem C5_stop_not_recording (s : StreamState) (r : Bool)
    (sender : String) (now : Nat) (env : CmdEnv)
    (h : s.recording = false) :
    stop_recording s now = (s, false, "Not recording")
    ∧ processCommand s r "RECORD_STOP" sender env
        = (s, r, "Not recording") := by
  refine ⟨?_, ?_⟩
  · simp [stop_recording, h]
  · simp [processCommand, stop_recording, h]

/-- C5, witness: `RECORD_STOP` at the initial (non-recording) state. -/
theorem C5_witness :
    initState.recording = false
    ∧ processCommand initState true "RECORD_STOP" "100.1.2.3" env0
        = (initState, true, "Not recording") :=
  ⟨by decide,
    (C5_stop_not_recording initState true "100.1.2.3" 7 env0 (by decide)).2⟩

/-- C6: for any finite sequence of START/STOP commands applied in
receipt order from any state, the final streaming flag is true iff the
last command is START, and when the last command is START it records
that sender's address as the control endpoint. -/
theorem C6_last_command_wins (pre : List (String × String × CmdEnv))
    (c : String × String × CmdEnv) (s : StreamState) (r : Bool)
    (hpre : ∀ x ∈ pre, x.1 = "START" ∨ x.1 = "STOP")
    (hc : c.1 = "START" ∨ c.1 = "STOP") :
    ((applyCommands s r (pre ++ [c])).1.streaming = true ↔ c.1 = "START")
    ∧ (c.1 = "START" →
        (applyCommands s r (pre ++ [c])).1.pc_ip = some c.2.1) := by
  rw [applyCommands_append]
  rcases hc with h | h <;> simp [applyCommands, processCommand, h]

/-- C6, witness: STOP then START ends with streaming on and the START
sender as control endpoint. -/
theorem C6_witness :
    ((applyCommands initState true
        ([("STOP", "10.0.0.5", env0)] ++ [("START", "10.0.0.9", env0)])).1.streaming
          = true
      ↔ (("START", "10.0.0.9", env0) : String × String × CmdEnv).1 = "START")
    ∧ ((("START", "10.0.0.9", env0) : String × String × CmdEnv).1 = "START" →
        (applyCommands initState true
          ([("STOP", "10.0.0.5", env0)] ++ [("START", "10.0.0.9", env0)])).1.pc_ip
            = some "10.0.0.9") :=
  C6_last_command_wins [("STOP", "10.0.0.5", env0)] ("START", "10.0.0.9", env0)
    initState true (by decide) (by decide)

/-- C10: a decodable datagram whose stripped, uppercased content is none
of the six commands leaves the state and the running flag unchanged and
is answered with the single reply "OK". -/
theorem C10_unknown_command_ok (s : StreamState) (r : Bool)
    (cmd sender : String) (env : CmdEnv)
    (h1 : cmd ≠ "START") (h2 : cmd ≠ "STOP") (h3 : cmd ≠ "RECORD_START")
    (h4 : cmd ≠ "RECORD_STOP") (h5 : cmd ≠ "PING")
    (h6 : cmd ≠ "SHUTDOWN") :
    processCommand s r cmd sender env = (s, r, "OK") := by
  simp [processCommand, h1, h2, h3, h4, h5, h6]

/-- C10, witness: the unknown command "HELLO" at the initial state. -/
theorem C10_witness :
    ("HELLO" : String) ≠ "START"
    ∧ processCommand initState true "HELLO" "100.1.2.3" env0
        = (initState, true, "OK") :=
  ⟨by decide,
    C10_unknown_command_ok initState true "HELLO" "100.1.2.3" env0
      (by decide) (by decide) (by decide) (by decide) (by decide) (by decide)⟩

/-- C2, counterexample: the sequence number does not wrap modulo 2^32.
From a streaming state with a learned endpoint, the iteration at
sequence number 2^32 - 1 hands its packet to the transport and advances
`seq` to 2^32 (not 0); the next iteration then RAISES inside
`header_struct.pack` — `iterSeq = none` — instead of sending a packet
with sequence number 0. -/
theorem C2_counterexample :
    iterSeq streamingState (UINT32_MOD - 1) 0 demoInput = some UINT32_MOD
    ∧ iterSeq streamingState UINT32_MOD 0 demoInput = none := by
  exact ⟨rfl, rfl⟩

/-- C2 (amended): per iteration of the streaming loop the sequence
number increases by exactly one when a frame is successfully handed to
the transport, and is unchanged when no control endpoint is known or the
send fails; it is never reduced modulo 2^32 — once it reaches 2^32 the
header pack raises `struct.error` and the loop dies instead of sending
sequence number 0.  The same holds for the lightweight server's loop. -/
theorem C2_sequence_number (s : StreamState) (seq fsz : Nat)
    (inp : StreamInput) (hstream : s.streaming = true)
    (hframe : inp.frame = true) (hts : inp.tsNs < UINT64_MOD) :
    (seq < UINT32_MOD → s.pc_ip.isSome = true → inp.sendOk = true →
      iterSeq s seq fsz inp = some (seq + 1))
    ∧ (seq < UINT32_MOD → s.pc_ip = none →
      iterSeq s seq fsz inp = some seq)
    ∧ (seq < UINT32_MOD → inp.sendOk = false →
      iterSeq s seq fsz inp = some seq)
    ∧ (UINT32_MOD ≤ seq →
      streamIter s seq fsz inp = .error "struct.error: argument out of range")
    ∧ (seq < UINT32_MOD → inp.sendOk = true →
      lightIter seq inp.frame inp.tsNs inp.sendOk = .ok (seq + 1))
    ∧ (seq < UINT32_MOD → inp.sendOk = false →
      lightIter seq inp.frame inp.tsNs inp.sendOk = .ok seq)
    ∧ (UINT32_MOD ≤ seq →
      lightIter seq inp.frame inp.tsNs inp.sendOk
        = .error "struct.error: argument out of range") := by
  refine ⟨?_, ?_, ?_, ?_, ?_, ?_, ?_⟩
  · intro hlt hip hsend
    obtain ⟨ip, hip'⟩ := Option.isSome_iff_exists.mp hip
    simp [iterSeq, streamIter, hstream, hframe, headerPack, hlt, hts, hip',
      hsend, write_frame_pc_ip]
  · intro hlt hip
    simp [iterSeq, streamIter, hstream, hframe, headerPack, hlt, hts, hip,
      write_frame_pc_ip]
  · intro hlt hsend
    cases hip : s.pc_ip <;>
      simp [iterSeq, streamIter, hstream, hframe, headerPack, hlt, hts, hip,
        hsend, write_frame_pc_ip]
  · intro hge
    have hnlt : ¬ seq < UINT32_MOD := Nat.not_lt.mpr hge
    simp [streamIter, hstream, hframe, headerPack, hnlt]
  · intro hlt hsend
    simp [lightIter, hframe, headerPack, hlt, hts, hsend]
  · intro hlt hsend
    simp [lightIter, hframe, headerPack, hlt, hts, hsend]
  · intro hge
    have hnlt : ¬ seq < UINT32_MOD := Nat.not_lt.mpr hge
    simp [lightIter, hframe, headerPack, hnlt]

/-- C2, witness: from a streaming state with a learned endpoint, a
successful send advances `seq` from 5 to 6, and at `seq = 2^32` the
iteration raises. -/
theorem C2_witness :
    (5 < UINT32_MOD ∧ iterSeq streamingState 5 0 demoInput = some 6)
    ∧ (UINT32_MOD ≤ UINT32_MOD
      ∧ streamIter streamingState UINT32_MOD 0 demoInput
          = .error "struct.error: argument out of range") :=
  ⟨⟨by decide,
    (C2_sequence_number streamingState 5 0 demoInput (by decide) (by decide)
      (by decide)).1 (by decide) (by decide) (by decide)⟩,
   ⟨le_refl UINT32_MOD,
    (C2_sequence_number streamingState UINT32_MOD 0 demoInput (by decide)
      (by decide) (by decide)).2.2.2.1 (le_refl UINT32_MOD)⟩⟩

theorem streamIter_cap (maxF : Nat) (s : StreamState) (seq fsz : Nat)
    (inp : StreamInput) (hinv : RecInv s) (hcap : fsz ≤ capBytes + maxF)
    (hrec : s.recording = true → fsz ≤ capBytes)
    (hfb : inp.frameBytes ≤ maxF) (hex : inp.fileExists = true)
    (r : StreamState × Nat × Nat)
    (h : streamIter s seq fsz inp = .ok r) :
    RecInv r.1 ∧ r.2.2 ≤ capBytes + maxF
      ∧ (r.1.recording = true → r.2.2 ≤ capBytes) := by
  obtain ⟨hi1, hi2, hi3⟩ := hinv
  simp only [streamIter] at h
  split at h
  · cases Except.ok.inj h
    exact ⟨⟨hi1, hi2, hi3⟩, hcap, hrec⟩
  split at h
  · cases Except.ok.inj h
    exact ⟨⟨hi1, hi2, hi3⟩, hcap, hrec⟩
  split at h
  · exact absurd h (by simp)
  cases Except.ok.inj h
  cases hrec0 : s.recording with
  | false =>
    have hw1 : write_frame s = (s, false) := by simp [write_frame, hrec0]
    rw [hw1]
    cases hip : s.pc_ip <;> cases hsd : inp.sendOk <;>
      simp_all [RecInv, writerOpen, hrec0]
  | true =>
    have hvw : s.video_writer.isSome = true := by
      cases hw : s.video_writer with
      | none => rw [hrec0] at hi1; simp [writerOpen, hw] at hi1
      | some w => simp
    obtain ⟨w, hw⟩ := Option.isSome_iff_exists.mp hvw
    cases hwo : w.isOpened with
    | false =>
      exfalso
      rw [hrec0] at hi1
      simp [writerOpen, hw, hwo] at hi1
    | true =>
      have hw1 : write_frame s
          = ({ s with frames_recorded := s.frames_recorded + 1 }, true) := by
        simp [write_frame, hrec0, hw]
      have hfile : s.recording_file.isSome = true := by
        rw [hrec0] at hi2; exact hi2.symm
      have hstart : s.recording_start_time.isSome = true := by
        rw [hrec0] at hi3; exact hi3.symm
      have hsz : fsz ≤ capBytes := hrec hrec0
      rw [hw1]
      by_cases hcb : capBytes < fsz + inp.frameBytes
      · have hcb2 : (capBytes < fsz + inp.frameBytes) = True := eq_true hcb
        cases hip : s.pc_ip <;> cases hsd : inp.sendOk <;>
          simp [RecInv, writerOpen, stop_recording, hcb2, hrec0, hw, hwo,
            hfile, hstart, hex] <;> omega
      · have hcb2 : (capBytes < fsz + inp.frameBytes) = False := eq_false hcb
        have hle : fsz + inp.frameBytes ≤ capBytes := Nat.not_lt.mp hcb
        cases hip : s.pc_ip <;> cases hsd : inp.sendOk <;>
          simp [RecInv, writerOpen, stop_recording, hcb2, hrec0, hw, hwo,
            hfile, hstart, hex] <;> omega

theorem streamRun_cons_ok (s : StreamState) (seq fsz : Nat)
    (i : StreamInput) (rest : List StreamInput)
    (m : StreamState × Nat × Nat) (hit : streamIter s seq fsz i = .ok m) :
    streamRun s seq fsz (i :: rest) = streamRun m.1 m.2.1 m.2.2 rest := by
  simp [streamRun, hit]

theorem streamRun_cap (maxF : Nat) (inps : List StreamInput)
    (s : StreamState) (seq fsz : Nat) (hinv : RecInv s)
    (hcap : fsz ≤ capBytes + maxF)
    (hrec : s.recording = true → fsz ≤ capBytes)
    (hins : ∀ i ∈ inps, i.frameBytes ≤ maxF ∧ i.fileExists = true)
    (r : StreamState × Nat × Nat) (h : streamRun s seq fsz inps = .ok r) :
    RecInv r.1 ∧ r.2.2 ≤ capBytes + maxF
      ∧ (r.1.recording = true → r.2.2 ≤ capBytes) := by
  induction inps generalizing s seq fsz with
  | nil =>
    simp only [streamRun, Except.ok.injEq] at h
    subst h
    exact ⟨hinv, hcap, hrec⟩
  | cons i rest ih =>
    cases hit : streamIter s seq fsz i with
    | error e =>
      rw [streamRun, hit] at h
      exact absurd h (by simp)
    | ok m =>
      rw [streamRun_cons_ok s seq fsz i rest m hit] at h
      have hm := streamIter_cap maxF s seq fsz i hinv hcap hrec
        (hins i (List.mem_cons_self i rest)).1
        (hins i (List.mem_cons_self i rest)).2 m hit
      exact ih m.1 m.2.1 m.2.2 hm.1 hm.2.1 hm.2.2
        (fun x hx => hins x (List.mem_cons_of_mem i hx)) h

/-- C7: in every run of the streaming loop from a state satisfying the
recording invariant whose current file does not yet exceed the cap,
where each frame adds at most `maxF` bytes and the recording file
exists on disk, the final file size never exceeds the cap by more than
one frame's worth of data, and whenever the run ends still recording the
size is back under the cap — i.e. the cap check in the same iteration
invokes `stop_recording` before any further frame is written. -/
theorem C7_size_cap (maxF : Nat) (inps : List StreamInput)
    (s : StreamState) (seq fsz : Nat) (s2 : StreamState) (seq2 fsz2 : Nat)
    (hinv : RecInv s) (hcap : fsz ≤ capBytes + maxF)
    (hrec : s.recording = true → fsz ≤ capBytes)
    (hins : ∀ i ∈ inps, i.frameBytes ≤ maxF ∧ i.fileExists = true)
    (h : streamRun s seq fsz inps = .ok (s2, seq2, fsz2)) :
    fsz2 ≤ capBytes + maxF
      ∧ (s2.recording = true → fsz2 ≤ capBytes) := by
  have := streamRun_cap maxF inps s seq fsz hinv hcap hrec hins
    (s2, seq2, fsz2) h
  exact ⟨this.2.1, this.2.2⟩

/-- C7, witness: from a recording-and-streaming state whose file sits
exactly at the cap, one more 100-byte frame overshoots the cap by that
frame only and the same iteration stops the recording. -/
theorem C7_witness :
    RecInv recStreamingState
    ∧ capBytes ≤ capBytes + 100
    ∧ (∀ i ∈ [demoInput], i.frameBytes ≤ 100 ∧ i.fileExists = true)
    ∧ (capBytes + 100 ≤ capBytes + 100
      ∧ (wState.recording = true → capBytes + 100 ≤ capBytes)) :=
  ⟨by decide, by decide, by decide,
    C7_size_cap 100 [demoInput] recStreamingState 0 capBytes wState 1
      (capBytes + 100) (by decide) (by decide) (fun h => by decide)
      (by decide) rfl⟩

theorem readChunksAux_flatten (fuel : Nat) (l : List Nat)
    (h : l.length ≤ fuel) : (readChunksAux fuel l).flatten = l := by
  induction fuel generalizing l with
  | zero =>
    cases l with
    | nil => simp [readChunksAux]
    | cons b rest => simp at h
  | succ f ih =>
    cases l with
    | nil => simp [readChunksAux]
    | cons b rest =>
      have hd : ((b :: rest).drop 8192).length ≤ f := by
        simp only [List.length_drop] at *
        simp at h ⊢
        omega
      simp only [readChunksAux, List.flatten_cons, ih ((b :: rest).drop 8192) hd,
        List.take_append_drop]

theorem readChunksAux_length_le (fuel : Nat) (l : List Nat) :
    ∀ c ∈ readChunksAux fuel l, c.length ≤ 8192 := by
  induction fuel generalizing l with
  | zero => simp [readChunksAux]
  | succ f ih =>
    cases l with
    | nil => simp [readChunksAux]
    | cons b rest =>
      intro c hc
      rcases List.mem_cons.mp hc with h | h
      · subst h; exact List.length_take_le 8192 (b :: rest)
      · exact ih ((b :: rest).drop 8192) c h

theorem readChunks_flatten (l : List Nat) : (readChunks l).flatten = l :=
  readChunksAux_flatten l.length l (le_refl _)

theorem readChunks_length_le (l : List Nat) :
    ∀ c ∈ readChunks l, c.length ≤ 8192 :=
  readChunksAux_length_le l.length l

/-- C8: for a `DOWNLOAD:<filename>` request, if the resolved file does
not exist the handler sends exactly the plaintext not-found message and
no file bytes; if it exists, the handler sends exactly the
`SIZE:<bytes>\n` preamble followed by the complete file content in
chunks of at most 8192 bytes whose concatenation is the file. -/
theorem C8_download (fs : FileSys) (name : String) :
    (fs (pathJoin RECORDING_DIR name) = none →
      handleDownload fs name = [Sent.text "ERROR: File not found"])
    ∧ (∀ content, fs (pathJoin RECORDING_DIR name) = some content →
      handleDownload fs name
          = Sent.text ("SIZE:" ++ toString content.length ++ "\n")
            :: (readChunks content).map Sent.bytes
        ∧ (readChunks content).flatten = content
        ∧ ∀ c ∈ readChunks content, c.length ≤ 8192) := by
  refine ⟨?_, ?_⟩
  · intro h
    simp [handleDownload, h]
  · intro content h
    exact ⟨by simp [handleDownload, h], readChunks_flatten content,
      readChunks_length_le content⟩

/-- C8, witness: downloading the three-byte recording `a.avi` yields the
`SIZE:3\n` preamble and one chunk holding the whole file. -/
theorem C8_witness :
    fsDemo (pathJoin RECORDING_DIR "a.avi") = some [7, 8, 9]
    ∧ (handleDownload fsDemo "a.avi"
        = Sent.text ("SIZE:" ++ toString ([7, 8, 9] : List Nat).length ++ "\n")
          :: (readChunks [7, 8, 9]).map Sent.bytes
      ∧ (readChunks [7, 8, 9]).flatten = [7, 8, 9]
      ∧ ∀ c ∈ readChunks [7, 8, 9], c.length ≤ 8192) :=
  ⟨by decide, (C8_download fsDemo "a.avi").2 [7, 8, 9] (by decide)⟩

/-- C9: the DOWNLOAD handler does not sanitize the requested filename —
there is a requested filename (an absolute path) whose resolved path
lies outside the recordings directory, and the handler serves that
file's bytes. -/
theorem C9_path_traversal :
    ∃ name : String,
      pathJoin RECORDING_DIR name = "/etc/passwd"
      ∧ ¬ (RECORDING_DIR ++ "/").data.isPrefixOf
            (pathJoin RECORDING_DIR name).data = true
      ∧ handleDownload fsEtc name
          = Sent.text "SIZE:4\n" :: [Sent.bytes [114, 111, 111, 116]] :=
  ⟨"/etc/passwd", by decide, by decide, by decide⟩

end VideoStream
